import Mathlib

/-!
Shallow embedding of the fixed-size vector library in src/hqvec.hpp
(namespace HQ, class template vec<T, n> with specializations for
n = 2, 3, 4), together with theorems settling the frozen claims.

Modelling conventions:
* The generic vec<T, n> stores `T m_data[n] = {0}`; a value of that form
  is embedded as the `List T` of its elements m_data[0 .. n).
* The specialized forms vec<T,4>, vec<T,3>, vec<T,2> have named fields
  x, y, z, w (each defaulted to 0); they are embedded as structures.
* Constructors taking `(T in[], int count)` read from a caller buffer,
  embedded as a function `Nat → T`.  For the generic form the copy loop
  can write past the end of m_data, so that constructor is embedded as a
  transformer of the whole surrounding memory (`Nat → T`), where slots
  0 .. n-1 are the vector and slots ≥ n are adjacent memory.
* `int` parameters that the source compares with `<` / `>` (the `count`
  of the specialized buffer constructors and of copy_to, and dynamic
  indices) are embedded as `Int`.
* Element types are arbitrary Lean types with the algebraic operations
  the member functions use (`Zero`, `Add`, `Mul`, `Sub`), standing for
  the numeric types T of the source.
-/

namespace HQ

/-- Generic form, default construction: `T m_data[n] = {0}` with the
variadic constructor given no arguments zero-initializes every slot
(hqvec.hpp line 27 and lines 36-39). -/
def vecN_default (T : Type) [Zero T] (n : Nat) : List T :=
  List.replicate n 0

/-- Generic form, variadic constructor (hqvec.hpp lines 36-39):
`m_data{static_cast<T>(args)...}` aggregate-initializes the first
`args.length` slots with the casted arguments and value-initializes
(zeroes) the remaining slots.  `cast` embeds `static_cast<T>`. -/
def vecN_fromArgs {S T : Type} [Zero T] (n : Nat) (cast : S → T)
    (args : List S) : List T :=
  args.map cast ++ List.replicate (n - args.length) 0

/-- Generic form, converting constructor from `vec<T1, n>`
(hqvec.hpp lines 48-53): `for (i < n) m_data[i] = v[i]`, an element-wise
conversion of every slot.  `cast` embeds the implicit T1 → T conversion
performed by the assignment. -/
def vecN_convCtor {T1 T : Type} (cast : T1 → T) (v : List T1) : List T :=
  v.map cast

/-- Generic form, buffer constructor `vec(T in[], int count)`
(hqvec.hpp lines 61-66).  The member default `m_data[n] = {0}` first
zeroes slots 0 .. n-1, then the loop `for (i = 0; i < count; i++)
m_data[i] = in[i]` copies `count` elements, with no bound at n.  The
result is the surrounding memory after construction: slot i holds the
copied buffer element for i < count (including slots ≥ n, which are
outside the vector object), the zero-initialized value for
count ≤ i < n, and the untouched prior contents `mem0 i` beyond both. -/
def vecN_fromBuf {T : Type} [Zero T] (n count : Nat)
    (buf mem0 : Nat → T) : Nat → T :=
  fun i => if i < count then buf i else if i < n then 0 else mem0 i

/-- Generic form, `to<T1>()` (hqvec.hpp lines 279-285): a fresh vector
with every slot converted, `out[i] = m_data[i]`. -/
def vecN_to {T T1 : Type} (cast : T → T1) (xs : List T) : List T1 :=
  xs.map cast

/-- Generic form, `expand<n1>()` (hqvec.hpp lines 303-310): a fresh
zero vector of dimension n1 whose first n slots are copied from the
source. -/
def vecN_expand {T : Type} [Zero T] (n1 : Nat) (xs : List T) : List T :=
  xs ++ List.replicate (n1 - xs.length) 0

/-- Generic form, `shrink<n1>()` (hqvec.hpp lines 320-327): the first
n1 slots of the source. -/
def vecN_shrink {T : Type} (n1 : Nat) (xs : List T) : List T :=
  xs.take n1

/-- Generic form, `length2()` (hqvec.hpp lines 341-348): `out = 0;`
then `out += temp * temp` over the slots in index order. -/
def vecN_length2 {T : Type} [Zero T] [Add T] [Mul T] (xs : List T) : T :=
  xs.foldl (fun acc a => acc + a * a) 0

/-- Generic form, `dot(v)` (hqvec.hpp lines 379-385): `out = 0;` then
`out += m_data[i] * v[i]` over the slots in index order. -/
def vecN_dot {T : Type} [Zero T] [Add T] [Mul T] (xs ys : List T) : T :=
  (List.zipWith (fun a b => a * b) xs ys).foldl (fun acc a => acc + a) 0

/-- Specialized 4-dimensional form vec<T,4> (hqvec.hpp lines 420-822):
named fields x, y, z, w in declaration order. -/
structure Vec4 (T : Type) where
  x : T
  y : T
  z : T
  w : T
deriving DecidableEq, Repr

/-- Specialized 3-dimensional form vec<T,3> (hqvec.hpp lines 829-1218). -/
structure Vec3 (T : Type) where
  x : T
  y : T
  z : T
deriving DecidableEq, Repr

/-- Specialized 2-dimensional form vec<T,2> (hqvec.hpp lines 1225-1573). -/
structure Vec2 (T : Type) where
  x : T
  y : T
deriving DecidableEq, Repr

/-- vec<T,4> buffer constructor (hqvec.hpp lines 447-456): the fields
default to 0 and `if (count > k) field = in[k]` assigns field k from the
buffer for k = 0, 1, 2, 3. -/
def Vec4.fromBuf {T : Type} [Zero T] (buf : Nat → T) (count : Int) : Vec4 T :=
  { x := if 0 < count then buf 0 else 0
    y := if 1 < count then buf 1 else 0
    z := if 2 < count then buf 2 else 0
    w := if 3 < count then buf 3 else 0 }

/-- vec<T,3> buffer constructor (hqvec.hpp lines 853-860). -/
def Vec3.fromBuf {T : Type} [Zero T] (buf : Nat → T) (count : Int) : Vec3 T :=
  { x := if 0 < count then buf 0 else 0
    y := if 1 < count then buf 1 else 0
    z := if 2 < count then buf 2 else 0 }

/-- vec<T,2> buffer constructor (hqvec.hpp lines 1246-1251). -/
def Vec2.fromBuf {T : Type} [Zero T] (buf : Nat → T) (count : Int) : Vec2 T :=
  { x := if 0 < count then buf 0 else 0
    y := if 1 < count then buf 1 else 0 }

/-- vec<T,4> const `operator[]` in a build with run-time assertions
disabled (hqvec.hpp lines 486-500): the switch returns the matching
field for i = 0, 1, 2, 3 and falls through to `return x` for every
other index. -/
def Vec4.idx {T : Type} (v : Vec4 T) (i : Int) : T :=
  if i = 0 then v.x
  else if i = 1 then v.y
  else if i = 2 then v.z
  else if i = 3 then v.w
  else v.x

/-- vec<T,3> const `operator[]` with assertions disabled
(hqvec.hpp lines 888-900). -/
def Vec3.idx {T : Type} (v : Vec3 T) (i : Int) : T :=
  if i = 0 then v.x
  else if i = 1 then v.y
  else if i = 2 then v.z
  else v.x

/-- vec<T,2> const `operator[]` with assertions disabled
(hqvec.hpp lines 1277-1287). -/
def Vec2.idx {T : Type} (v : Vec2 T) (i : Int) : T :=
  if i = 0 then v.x
  else if i = 1 then v.y
  else v.x

/-- vec<T,4> `copy_to(T out[], int count)` (hqvec.hpp lines 671-680):
`if (count > k) out[k] = field` for k = 0, 1, 2, 3.  The caller buffer
is embedded as memory `Nat → T`; the result is that memory after the
guarded writes. -/
def Vec4.copy_to {T : Type} (v : Vec4 T) (count : Int)
    (out0 : Nat → T) : Nat → T :=
  let o0 := if 0 < count then Function.update out0 0 v.x else out0
  let o1 := if 1 < count then Function.update o0 1 v.y else o0
  let o2 := if 2 < count then Function.update o1 2 v.z else o1
  if 3 < count then Function.update o2 3 v.w else o2

/-- vec<T,3> `copy_to` (hqvec.hpp lines 1065-1072). -/
def Vec3.copy_to {T : Type} (v : Vec3 T) (count : Int)
    (out0 : Nat → T) : Nat → T :=
  let o0 := if 0 < count then Function.update out0 0 v.x else out0
  let o1 := if 1 < count then Function.update o0 1 v.y else o0
  if 2 < count then Function.update o1 2 v.z else o1

/-- vec<T,2> `copy_to` (hqvec.hpp lines 1448-1453). -/
def Vec2.copy_to {T : Type} (v : Vec2 T) (count : Int)
    (out0 : Nat → T) : Nat → T :=
  let o0 := if 0 < count then Function.update out0 0 v.x else out0
  if 1 < count then Function.update o0 1 v.y else o0

/-- vec<T,4> `length2()` (hqvec.hpp line 765). -/
def Vec4.length2 {T : Type} [Add T] [Mul T] (v : Vec4 T) : T :=
  v.x * v.x + v.y * v.y + v.z * v.z + v.w * v.w

/-- vec<T,4> `dot(v)` (hqvec.hpp lines 796-798). -/
def Vec4.dot {T : Type} [Add T] [Mul T] (p v : Vec4 T) : T :=
  p.x * v.x + p.y * v.y + p.z * v.z + p.w * v.w

/-- vec<T,3> `length2()` (hqvec.hpp line 1152). -/
def Vec3.length2 {T : Type} [Add T] [Mul T] (v : Vec3 T) : T :=
  v.x * v.x + v.y * v.y + v.z * v.z

/-- vec<T,3> `dot(v)` (hqvec.hpp line 1183). -/
def Vec3.dot {T : Type} [Add T] [Mul T] (p v : Vec3 T) : T :=
  p.x * v.x + p.y * v.y + p.z * v.z

/-- vec<T,2> `length2()` (hqvec.hpp line 1519). -/
def Vec2.length2 {T : Type} [Add T] [Mul T] (v : Vec2 T) : T :=
  v.x * v.x + v.y * v.y

/-- vec<T,2> `dot(v)` (hqvec.hpp line 1550). -/
def Vec2.dot {T : Type} [Add T] [Mul T] (p v : Vec2 T) : T :=
  p.x * v.x + p.y * v.y

/-- vec<T,3> `cross(v)` as written in the source (hqvec.hpp lines
1191-1194): the second component is `z * v.x - x * b.z`, where `b` is
an identifier that is declared nowhere in the program, so the source
does not compile (GCC: error at line 1192, b was not declared in this
scope).  The embedding makes that unbound name an explicit extra
parameter `b` so the written formula can be evaluated. -/
def Vec3.cross_src {T : Type} [Mul T] [Sub T] (p v b : Vec3 T) : Vec3 T :=
  { x := p.y * v.z - p.z * v.y
    y := p.z * v.x - p.x * b.z
    z := p.x * v.y - p.y * v.x }

/-- vec<T,4> `shrink<n1>()`, branch n1 = 3 (hqvec.hpp lines 746-751):
`return vec<T, n1>(x, y, z)`.  This is the only instantiation of
vec<T,4>::shrink that compiles: the statement `if (n1 == 3)` is a
run-time conditional, not `if constexpr`, so instantiating shrink with
n1 = 2 also type-checks the three-argument branch against vec<T,2>, which
has no three-argument constructor, and fails to compile. -/
def Vec4.shrink3 {T : Type} (v : Vec4 T) : Vec3 T :=
  { x := v.x, y := v.y, z := v.z }

/-- vec<T,3> `shrink<n1>()` with n1 = 2, the only size its static_assert
admits (hqvec.hpp lines 1135-1138): `return vec<T, n1>(x, y)`. -/
def Vec3.shrink2 {T : Type} (v : Vec3 T) : Vec2 T :=
  { x := v.x, y := v.y }

/-- vec<T,2> `expand<n1>()` with n1 = 3 (hqvec.hpp lines 1502-1505):
`return vec<T, n1>(x, y)` hits the vec<T,3> constructor whose z
parameter defaults to 0. -/
def Vec2.expand3 {T : Type} [Zero T] (v : Vec2 T) : Vec3 T :=
  { x := v.x, y := v.y, z := 0 }

/-- vec<T,2> `expand<n1>()` with n1 = 4: `return vec<T, n1>(x, y)` hits
the vec<T,4> constructor, z and w defaulting to 0. -/
def Vec2.expand4 {T : Type} [Zero T] (v : Vec2 T) : Vec4 T :=
  { x := v.x, y := v.y, z := 0, w := 0 }

/-- vec<T,3> `expand<n1>()` with n1 = 4 (hqvec.hpp lines 1122-1125):
`return vec<T, n1>(x, y, z)`, w defaulting to 0. -/
def Vec3.expand4 {T : Type} [Zero T] (v : Vec3 T) : Vec4 T :=
  { x := v.x, y := v.y, z := v.z, w := 0 }

/-- vec<T,2> `expand<n1>()` with n1 ≥ 5: `return vec<T, n1>(x, y)` hits
the generic variadic constructor, zero-filling slots 2 .. n1-1. -/
def Vec2.expandN {T : Type} [Zero T] (n1 : Nat) (v : Vec2 T) : List T :=
  [v.x, v.y] ++ List.replicate (n1 - 2) 0

/-- vec<T,3> `expand<n1>()` with n1 ≥ 5, via the generic variadic
constructor. -/
def Vec3.expandN {T : Type} [Zero T] (n1 : Nat) (v : Vec3 T) : List T :=
  [v.x, v.y, v.z] ++ List.replicate (n1 - 3) 0

/-- vec<T,4> `expand<n1>()` (hqvec.hpp lines 733-736), n1 ≥ 5, via the
generic variadic constructor. -/
def Vec4.expandN {T : Type} [Zero T] (n1 : Nat) (v : Vec4 T) : List T :=
  [v.x, v.y, v.z, v.w] ++ List.replicate (n1 - 4) 0

/-- Generic `shrink<n1>()` with target n1 = 2: `vec<T,2> out;` (fields
zeroed) then `out[i] = m_data[i]` for i = 0, 1. -/
def vecN_shrink2 {T : Type} [Zero T] (xs : List T) : Vec2 T :=
  { x := xs.getD 0 0, y := xs.getD 1 0 }

/-- Generic `shrink<n1>()` with target n1 = 3. -/
def vecN_shrink3 {T : Type} [Zero T] (xs : List T) : Vec3 T :=
  { x := xs.getD 0 0, y := xs.getD 1 0, z := xs.getD 2 0 }

/-- Generic `shrink<n1>()` with target n1 = 4. -/
def vecN_shrink4 {T : Type} [Zero T] (xs : List T) : Vec4 T :=
  { x := xs.getD 0 0, y := xs.getD 1 0, z := xs.getD 2 0, w := xs.getD 3 0 }

/-- Helper: folding the running sum of pairwise products of a list with
itself agrees with folding the running sum of squares, for any starting
accumulator. -/
theorem foldl_zipWith_self {T : Type} [Add T] [Mul T] (xs : List T) (c : T) :
    (List.zipWith (fun a b => a * b) xs xs).foldl (fun acc a => acc + a) c =
      xs.foldl (fun acc a => acc + a * a) c := by
  induction xs generalizing c with
  | nil => rfl
  | cons a as ih => simpa using ih (c + a * a)

/-- C1.  The claim states that for 3-dimensional p and q, p.cross(q)
returns the standard 3D cross product
(p.y*q.z - p.z*q.y, p.z*q.x - p.x*q.z, p.x*q.y - p.y*q.x).  The source
body (hqvec.hpp line 1192) instead reads `z * v.x - x * b.z` in the
second component, where `b` is not declared anywhere, so the member does
not compile.  Evaluating the written formula with the unbound name made
an explicit parameter: at p = (1,0,0), q = (0,1,0) and b = (0,0,1) the
source formula yields (0,-1,1), the standard cross product of p and q
is (0,0,1), and the two differ. -/
theorem cross_source_formula_deviates :
    Vec3.cross_src (Vec3.mk 1 0 0) (Vec3.mk 0 1 0) (Vec3.mk 0 0 1) =
      Vec3.mk (0 : Int) (-1) 1 ∧
    Vec3.mk ((0 : Int) * 0 - 0 * 1) (0 * 0 - 1 * 0) (1 * 1 - 0 * 0) =
      Vec3.mk 0 0 1 ∧
    Vec3.mk (0 : Int) (-1) 1 ≠ Vec3.mk 0 0 1 :=
  ⟨by decide, by decide, by decide⟩

/-- C2.  The half of the claim that the code supports: for every
4-dimensional vector v, v.shrink<3>() (the only instantiation of
vec<T,4>::shrink that compiles) yields the 3-dimensional vector
(v.x, v.y, v.z).  The other half of the claim — that v.shrink<2>() is
also well-formed — fails: the branch `return vec<T, n1>(x, y, z)` of
the non-constexpr `if (n1 == 3)` is type-checked at n1 = 2 as well,
and vec<T,2> has no three-argument constructor. -/
theorem vec4_shrink3_keeps_xyz {T : Type} (v : Vec4 T) :
    Vec4.shrink3 v = Vec3.mk v.x v.y v.z := rfl

/-- C3.  The round trip p.expand<m>().shrink<n>() == p, proved on every
combination of forms that compiles: generic-to-generic for all sizes,
vec2 through vec3, vec3 through vec4, and each specialized form through
a generic expansion of size m ≥ 5.  The single remaining combination,
n = 2 with m = 4, is rejected at compile time by the vec<T,4>::shrink<2>
bug recorded for claim C2. -/
theorem expand_shrink_roundtrip_compilable :
    (∀ {T : Type} [Zero T] (n m : Nat) (xs : List T),
      xs.length = n → n ≤ m → vecN_shrink n (vecN_expand m xs) = xs) ∧
    (∀ {T : Type} [Zero T] (p : Vec2 T), Vec3.shrink2 (Vec2.expand3 p) = p) ∧
    (∀ {T : Type} [Zero T] (p : Vec3 T), Vec4.shrink3 (Vec3.expand4 p) = p) ∧
    (∀ {T : Type} [Zero T] (m : Nat) (p : Vec2 T), 4 < m →
      vecN_shrink2 (Vec2.expandN m p) = p) ∧
    (∀ {T : Type} [Zero T] (m : Nat) (p : Vec3 T), 4 < m →
      vecN_shrink3 (Vec3.expandN m p) = p) ∧
    (∀ {T : Type} [Zero T] (m : Nat) (p : Vec4 T), 4 < m →
      vecN_shrink4 (Vec4.expandN m p) = p) := by
  refine ⟨?_, ?_, ?_, ?_, ?_, ?_⟩
  · intro T _ n m xs hn hm
    subst hn
    simp only [vecN_shrink, vecN_expand]
    rw [List.take_append_of_le_length (le_refl _), List.take_length]
  · intro T _ p; rfl
  · intro T _ p; rfl
  · intro T _ m p hm
    simp only [vecN_shrink2, Vec2.expandN]; rfl
  · intro T _ m p hm
    simp only [vecN_shrink3, Vec3.expandN]; rfl
  · intro T _ m p hm
    simp only [vecN_shrink4, Vec4.expandN]; rfl

/-- Witness for C3: the round trip evaluated at concrete inputs, a
generic pair (n = 2, m = 5) and a specialized-through-generic pair
(vec2 through dimension 7). -/
theorem expand_shrink_roundtrip_compilable_witness :
    ([(1 : Int), 2].length = 2 ∧ 2 ≤ 5 ∧
      vecN_shrink 2 (vecN_expand 5 [(1 : Int), 2]) = [1, 2]) ∧
    (4 < 7 ∧ vecN_shrink2 (Vec2.expandN 7 (Vec2.mk (3 : Int) 4)) =
      Vec2.mk 3 4) :=
  ⟨⟨by decide, by decide,
    expand_shrink_roundtrip_compilable.1 2 5 [(1 : Int), 2]
      (by decide) (by decide)⟩,
   ⟨by decide,
    expand_shrink_roundtrip_compilable.2.2.2.1 7 (Vec2.mk (3 : Int) 4)
      (by decide)⟩⟩

/-- C4, counterexample.  The claim states that the generic buffer
constructor with count > n copies only the first n buffer elements and
accesses no vector slot at index ≥ n.  In the source loop
`for (i = 0; i < count; i++) m_data[i] = in[i]` there is no bound at n:
at n = 5, count = 6 the construction writes slot 5, one past the last
vector slot — the memory slot at index 5, previously 99, afterwards
holds buffer element 5. -/
theorem generic_fromBuf_writes_past_n :
    vecN_fromBuf 5 6 (fun i => (i : Int) + 1) (fun _ => 99) 5 ≠ 99 := by
  norm_num [vecN_fromBuf]

/-- C4, amended.  The generic buffer constructor copies all count
elements with no truncation at n: slot i holds the buffer element for
every i < count (so for count > n it writes slots at index ≥ n, outside
the vector object — undefined behavior), slots in [count, n) hold zero,
and memory beyond both bounds is untouched. -/
theorem generic_fromBuf_no_truncation {T : Type} [Zero T]
    (n count : Nat) (buf mem0 : Nat → T) :
    (∀ i, i < count → vecN_fromBuf n count buf mem0 i = buf i) ∧
    (∀ i, count ≤ i → i < n → vecN_fromBuf n count buf mem0 i = 0) ∧
    (∀ i, count ≤ i → n ≤ i → vecN_fromBuf n count buf mem0 i = mem0 i) ∧
    (n < count → vecN_fromBuf n count buf mem0 n = buf n) := by
  refine ⟨fun i hi => ?_, fun i h1 h2 => ?_, fun i h1 h2 => ?_, fun h => ?_⟩ <;>
    simp only [vecN_fromBuf] <;>
    first
      | (rw [if_pos (by omega)])
      | (rw [if_neg (by omega), if_pos (by omega)])
      | (rw [if_neg (by omega), if_neg (by omega)])

/-- Witness for C4 (amended): at n = 5, count = 6 the slot at index 5
receives buffer element 5. -/
theorem generic_fromBuf_no_truncation_witness :
    5 < 6 ∧
    vecN_fromBuf 5 6 (fun i => (i : Int)) (fun _ => 99) 5 = 5 :=
  ⟨by decide,
   (generic_fromBuf_no_truncation 5 6 (fun i => (i : Int))
     (fun _ => 99)).2.2.2 (by decide)⟩

/-- C5.  The element-wise conversion performed by the generic converting
constructor vec(vec<T1, n>) — the path that implicit conversions
actually resolve to — agrees with to<T1>(): both convert every slot.
The conversion operator itself (hqvec.hpp line 293) does not compile
when instantiated, recorded as the code bug of this claim. -/
theorem generic_convCtor_eq_to {T T1 : Type} (cast : T → T1) (xs : List T) :
    vecN_convCtor cast xs = vecN_to cast xs := rfl

/-- C6.  Constructing from a buffer with count ≤ n sets slots
0 .. count-1 to the buffer contents and leaves every slot in [count, n)
at zero, on the generic form and on each of the specialized forms. -/
theorem fromBuf_copies_then_zeroes :
    (∀ {T : Type} [Zero T] (n count : Nat) (buf mem0 : Nat → T),
      count ≤ n →
      (∀ i, i < count → vecN_fromBuf n count buf mem0 i = buf i) ∧
      (∀ i, count ≤ i → i < n → vecN_fromBuf n count buf mem0 i = 0)) ∧
    (∀ {T : Type} [Zero T] (buf : Nat → T) (count : Int), count ≤ 4 →
      ∀ i : Nat, i < 4 →
      ((i : Int) < count → Vec4.idx (Vec4.fromBuf buf count) i = buf i) ∧
      (count ≤ (i : Int) → Vec4.idx (Vec4.fromBuf buf count) i = 0)) ∧
    (∀ {T : Type} [Zero T] (buf : Nat → T) (count : Int), count ≤ 3 →
      ∀ i : Nat, i < 3 →
      ((i : Int) < count → Vec3.idx (Vec3.fromBuf buf count) i = buf i) ∧
      (count ≤ (i : Int) → Vec3.idx (Vec3.fromBuf buf count) i = 0)) ∧
    (∀ {T : Type} [Zero T] (buf : Nat → T) (count : Int), count ≤ 2 →
      ∀ i : Nat, i < 2 →
      ((i : Int) < count → Vec2.idx (Vec2.fromBuf buf count) i = buf i) ∧
      (count ≤ (i : Int) → Vec2.idx (Vec2.fromBuf buf count) i = 0)) := by
  refine ⟨?_, ?_, ?_, ?_⟩
  · intro T _ n count buf mem0 hc
    refine ⟨fun i hi => ?_, fun i h1 h2 => ?_⟩ <;>
      simp only [vecN_fromBuf] <;>
      first
        | (rw [if_pos (by omega)])
        | (rw [if_neg (by omega), if_pos (by omega)])
  · intro T _ buf count hc i hi
    interval_cases i <;>
      constructor <;> intro h <;>
      simp only [Vec4.idx, Vec4.fromBuf] <;> norm_num <;>
      (intro h2; exact absurd h2 (by omega))
  · intro T _ buf count hc i hi
    interval_cases i <;>
      constructor <;> intro h <;>
      simp only [Vec3.idx, Vec3.fromBuf] <;> norm_num <;>
      (intro h2; exact absurd h2 (by omega))
  · intro T _ buf count hc i hi
    interval_cases i <;>
      constructor <;> intro h <;>
      simp only [Vec2.idx, Vec2.fromBuf] <;> norm_num <;>
      (intro h2; exact absurd h2 (by omega))

/-- Witness for C6: a generic construction with n = 4, count = 2 leaves
slot 3 at zero, and a vec<T,3> construction with count = 2 copies
buffer element 1 into slot 1. -/
theorem fromBuf_copies_then_zeroes_witness :
    (2 ≤ 4 ∧ vecN_fromBuf 4 2 (fun i => (i : Int)) (fun _ => 99) 3 = 0) ∧
    ((2 : Int) ≤ 3 ∧ (1 : Int) < 2 ∧
      Vec3.idx (Vec3.fromBuf (fun i => (i : Int)) 2) 1 = 1) :=
  ⟨⟨by decide,
    (fromBuf_copies_then_zeroes.1 4 2 (fun i => (i : Int)) (fun _ => 99)
      (by decide)).2 3 (by decide) (by decide)⟩,
   ⟨by decide, by decide,
    (fromBuf_copies_then_zeroes.2.2.1 (fun i => (i : Int)) 2 (by decide)
      1 (by decide)).1 (by decide)⟩⟩

/-- C7.  On every form, length2() equals dot() of the vector with
itself: both are the identically ordered sum of squares of the slots. -/
theorem length2_eq_dot_self :
    (∀ {T : Type} [Zero T] [Add T] [Mul T] (xs : List T),
      vecN_length2 xs = vecN_dot xs xs) ∧
    (∀ {T : Type} [Add T] [Mul T] (v : Vec4 T), Vec4.length2 v = Vec4.dot v v) ∧
    (∀ {T : Type} [Add T] [Mul T] (v : Vec3 T), Vec3.length2 v = Vec3.dot v v) ∧
    (∀ {T : Type} [Add T] [Mul T] (v : Vec2 T), Vec2.length2 v = Vec2.dot v v) := by
  refine ⟨?_, fun v => rfl, fun v => rfl, fun v => rfl⟩
  intro T _ _ _ xs
  unfold vecN_length2 vecN_dot
  exact (foldl_zipWith_self xs 0).symm

/-- C8.  The generic variadic constructor called with k ≤ n arguments
sets slots 0 .. k-1 to the casted argument values and zero-fills every
slot in [k, n): the aggregate member initializer
`m_data{static_cast<T>(args)...}` value-initializes the trailing
slots. -/
theorem varargs_zero_fills_tail {S T : Type} [Zero T] (n : Nat)
    (cast : S → T) (args : List S) (hk : args.length ≤ n) :
    (∀ i (h : i < args.length),
      (vecN_fromArgs n cast args).getD i 0 = cast (args.get ⟨i, h⟩)) ∧
    (∀ i, args.length ≤ i → i < n →
      (vecN_fromArgs n cast args).getD i 0 = 0) := by
  constructor
  · intro i h
    have h' : i < (List.map cast args).length := by simpa using h
    unfold vecN_fromArgs
    rw [List.getD_eq_getElem?_getD, List.getElem?_append, if_pos h']
    simp [List.getElem?_eq_getElem h']
  · intro i hlo hhi
    have h2 : ¬ i < (List.map cast args).length := by
      simp only [List.length_map]; omega
    have h3 : i - args.length < n - args.length := by omega
    unfold vecN_fromArgs
    rw [List.getD_eq_getElem?_getD, List.getElem?_append, if_neg h2]
    simp [List.getElem?_replicate, h3]

/-- Witness for C8: constructing a 4-slot generic vector from the two
arguments 5 and 6 puts 6 at slot 1 and 0 at slot 2. -/
theorem varargs_zero_fills_tail_witness :
    ([( 5 : Int), 6].length ≤ 4 ∧
      (vecN_fromArgs 4 (fun a => a) [(5 : Int), 6]).getD 1 0 = 6) ∧
    (vecN_fromArgs 4 (fun a => a) [(5 : Int), 6]).getD 2 0 = 0 :=
  ⟨⟨by decide,
    (varargs_zero_fills_tail 4 (fun a => a) [(5 : Int), 6]
      (by decide)).1 1 (by decide)⟩,
   (varargs_zero_fills_tail 4 (fun a => a) [(5 : Int), 6]
     (by decide)).2 2 (by decide) (by decide)⟩

/-- C9.  On each specialized form, the const index operator applied to
any index outside [0, n) — with run-time assertions disabled — falls
through the switch default and returns the x component. -/
theorem specialized_idx_oob_returns_x :
    (∀ {T : Type} (v : Vec4 T) (i : Int), (i < 0 ∨ 4 ≤ i) →
      Vec4.idx v i = v.x) ∧
    (∀ {T : Type} (v : Vec3 T) (i : Int), (i < 0 ∨ 3 ≤ i) →
      Vec3.idx v i = v.x) ∧
    (∀ {T : Type} (v : Vec2 T) (i : Int), (i < 0 ∨ 2 ≤ i) →
      Vec2.idx v i = v.x) := by
  refine ⟨?_, ?_, ?_⟩ <;> intro T v i h <;>
    simp only [Vec4.idx, Vec3.idx, Vec2.idx] <;>
    repeat rw [if_neg (by omega)]

/-- Witness for C9: out-of-range reads at 10 and -1 return the x
component on concrete vectors. -/
theorem specialized_idx_oob_returns_x_witness :
    ((10 : Int) < 0 ∨ (4 : Int) ≤ 10) ∧
    Vec4.idx (Vec4.mk (1 : Int) 2 3 4) 10 = 1 ∧
    Vec2.idx (Vec2.mk (7 : Int) 8) (-1) = 7 :=
  ⟨Or.inr (by decide),
   specialized_idx_oob_returns_x.1 (Vec4.mk (1 : Int) 2 3 4) 10
     (Or.inr (by decide)),
   specialized_idx_oob_returns_x.2.2 (Vec2.mk (7 : Int) 8) (-1)
     (Or.inl (by decide))⟩

/-- C10.  On each specialized form, the buffer constructor and copy_to
clamp the count: with count ≥ n they behave identically to count = n,
and the constructor reads only the first n buffer positions. -/
theorem specialized_fromBuf_copyTo_clamp :
    (∀ {T : Type} [Zero T] (buf : Nat → T) (count : Int), 4 ≤ count →
      Vec4.fromBuf buf count = Vec4.fromBuf buf 4) ∧
    (∀ {T : Type} (v : Vec4 T) (count : Int) (out0 : Nat → T), 4 ≤ count →
      Vec4.copy_to v count out0 = Vec4.copy_to v 4 out0) ∧
    (∀ {T : Type} [Zero T] (buf buf2 : Nat → T) (count : Int),
      (∀ j, j < 4 → buf j = buf2 j) →
      Vec4.fromBuf buf count = Vec4.fromBuf buf2 count) ∧
    (∀ {T : Type} [Zero T] (buf : Nat → T) (count : Int), 3 ≤ count →
      Vec3.fromBuf buf count = Vec3.fromBuf buf 3) ∧
    (∀ {T : Type} (v : Vec3 T) (count : Int) (out0 : Nat → T), 3 ≤ count →
      Vec3.copy_to v count out0 = Vec3.copy_to v 3 out0) ∧
    (∀ {T : Type} [Zero T] (buf buf2 : Nat → T) (count : Int),
      (∀ j, j < 3 → buf j = buf2 j) →
      Vec3.fromBuf buf count = Vec3.fromBuf buf2 count) ∧
    (∀ {T : Type} [Zero T] (buf : Nat → T) (count : Int), 2 ≤ count →
      Vec2.fromBuf buf count = Vec2.fromBuf buf 2) ∧
    (∀ {T : Type} (v : Vec2 T) (count : Int) (out0 : Nat → T), 2 ≤ count →
      Vec2.copy_to v count out0 = Vec2.copy_to v 2 out0) ∧
    (∀ {T : Type} [Zero T] (buf buf2 : Nat → T) (count : Int),
      (∀ j, j < 2 → buf j = buf2 j) →
      Vec2.fromBuf buf count = Vec2.fromBuf buf2 count) := by
  refine ⟨?_, ?_, ?_, ?_, ?_, ?_, ?_, ?_, ?_⟩
  · intro T _ buf count h
    simp only [Vec4.fromBuf]
    repeat rw [if_pos (by omega)]
  · intro T v count out0 h
    simp only [Vec4.copy_to]
    repeat rw [if_pos (by omega)]
  · intro T _ buf buf2 count h
    simp only [Vec4.fromBuf]
    rw [h 0 (by omega), h 1 (by omega), h 2 (by omega), h 3 (by omega)]
  · intro T _ buf count h
    simp only [Vec3.fromBuf]
    repeat rw [if_pos (by omega)]
  · intro T v count out0 h
    simp only [Vec3.copy_to]
    repeat rw [if_pos (by omega)]
  · intro T _ buf buf2 count h
    simp only [Vec3.fromBuf]
    rw [h 0 (by omega), h 1 (by omega), h 2 (by omega)]
  · intro T _ buf count h
    simp only [Vec2.fromBuf]
    repeat rw [if_pos (by omega)]
  · intro T v count out0 h
    simp only [Vec2.copy_to]
    repeat rw [if_pos (by omega)]
  · intro T _ buf buf2 count h
    simp only [Vec2.fromBuf]
    rw [h 0 (by omega), h 1 (by omega)]

/-- Witness for C10: at count = 7 the vec<T,4> constructor and copy_to
coincide with count = 4 on concrete data. -/
theorem specialized_fromBuf_copyTo_clamp_witness :
    ((4 : Int) ≤ 7 ∧
      Vec4.fromBuf (fun i => (i : Int)) 7 =
        Vec4.fromBuf (fun i => (i : Int)) 4) ∧
    Vec4.copy_to (Vec4.mk (1 : Int) 2 3 4) 7 (fun _ => 0) =
      Vec4.copy_to (Vec4.mk (1 : Int) 2 3 4) 4 (fun _ => 0) :=
  ⟨⟨by decide,
    specialized_fromBuf_copyTo_clamp.1 (fun i => (i : Int)) 7 (by decide)⟩,
   specialized_fromBuf_copyTo_clamp.2.1 (Vec4.mk (1 : Int) 2 3 4) 7
     (fun _ => 0) (by decide)⟩

end HQ
